import Mathlib

set_option maxRecDepth 8192

/-!
Shallow embedding of the process-orchestration and session-output-management
layer of the Android-suite repository (file objection_module.py, class
ObjectionTester).  Pure data and string manipulation are translated directly;
the operating-system effects (child-process execution, the clock, file writes)
are supplied by explicit environment records, and the filesystem is explicit
state.  Python truthiness of the optional fields is modelled faithfully
(None and the empty string are falsy; None and 0 are falsy for integers).
-/

/-- Python truthiness of an optional string field: None and the empty string
are falsy. -/
def truthyOptStr : Option String → Bool
  | none => false
  | some s => s ≠ ""

/-- Python truthiness of an optional integer field: None and 0 are falsy. -/
def truthyOptInt : Option Int → Bool
  | none => false
  | some n => n ≠ 0

/-- The value of an optional string, used only under a truthiness guard. -/
def optStrVal : Option String → String
  | none => ""
  | some s => s

/-- Rendering of an optional integer inside a Python f-string:
None prints as the four characters None. -/
def optIntStr : Option Int → String
  | none => "None"
  | some n => toString n

/-- Python x or y on a leading optional-string operand: the first operand is
kept when truthy, otherwise the second operand is the value. -/
def pyOrOptStr (a : Option String) (b : String) : String :=
  match a with
  | none => b
  | some s => if s = "" then b else s

/-- Python x or y on two strings: the first is kept when nonempty. -/
def pyOrStr (a b : String) : String :=
  if a = "" then b else a

/-- Whether the character is stripped by the Python str.strip method. -/
def pySpace (c : Char) : Bool :=
  c = ' ' || c = '\t' || c = '\n' || c = '\r' || c = '\x0b' || c = '\x0c'

/-- Python str.strip: remove leading and trailing whitespace. -/
def pyStrip (s : String) : String :=
  String.mk (((s.data.dropWhile pySpace).reverse.dropWhile pySpace).reverse)

/-- Occurrence of one character list inside another, as in the Python
in operator on strings. -/
def listContainsSub : List Char → List Char → Bool
  | _, [] => true
  | [], _ :: _ => false
  | c :: t, needle => needle.isPrefixOf (c :: t) || listContainsSub t needle

/-- Python needle in hay on strings. -/
def strContains (hay needle : String) : Bool :=
  listContainsSub hay.data needle.data

/-- The suffix of hay that follows the first occurrence of needle,
or none when needle does not occur. -/
def listAfterSub (needle : List Char) : List Char → Option (List Char)
  | [] => if needle.isEmpty then some [] else none
  | c :: t =>
    if needle.isPrefixOf (c :: t) then some ((c :: t).drop needle.length)
    else listAfterSub needle t

/-- The constructor state of the ObjectionTester class: the target
(optional package name or process id), the optional device id, and the
output directory. -/
structure ObjectionTester where
  package_name : Option String
  process_id : Option Int
  device_id : Option String
  output_dir : String
deriving DecidableEq

/-- The banner line of eighty equals signs used by _format_output. -/
def eq80 : String := String.mk (List.replicate 80 '=')

/-- The separator line of forty dashes used by _format_output. -/
def dash40 : String := String.mk (List.replicate 40 '-')

/-- The nine test-category subdirectory names created by
_create_output_structure. -/
def categories : List String :=
  ["security_bypasses",
   "data_exploration",
   "runtime_analysis",
   "network_monitoring",
   "application_info",
   "dynamic_manipulation",
   "advanced_testing",
   "quick_tests",
   "session_logs"]

/-- The per-target directory name chosen by _create_output_structure:
the package name when truthy, else pid_ and the process id when truthy,
else the placeholder unknown_app. -/
def appDirName (t : ObjectionTester) : String :=
  if truthyOptStr t.package_name then optStrVal t.package_name
  else if truthyOptInt t.process_id then "pid_" ++ optIntStr t.process_id
  else "unknown_app"

/-- The session root directory (the app_output_dir attribute set by
_create_output_structure): output_dir joined with the per-target name. -/
def app_output_dir (t : ObjectionTester) : String :=
  t.output_dir ++ "/" ++ appDirName t

/-- An explicit filesystem: the set of existing directories and the files
written so far (path and content), in creation order. -/
structure FS where
  dirs : List String
  files : List (String × String)
deriving DecidableEq

/-- Record a directory as existing; creating an existing directory is a
no-op, as with mkdir exist_ok=True. -/
def addDir (ds : List String) (d : String) : List String :=
  if d ∈ ds then ds else ds ++ [d]

/-- Record a list of directories in order. -/
def addDirs (ds : List String) (l : List String) : List String :=
  l.foldl addDir ds

/-- Helper for pathParentChain: acc holds the reversed characters read so
far; each slash boundary and the end of the path contribute one prefix. -/
def pathParentChainAux : List Char → List Char → List String
  | acc, [] => [String.mk acc.reverse]
  | acc, c :: t =>
    if c = '/' then String.mk acc.reverse :: pathParentChainAux (c :: acc) t
    else pathParentChainAux (c :: acc) t

/-- All prefixes of a slash-separated path, shortest first: the directories
that mkdir parents=True brings into existence for that path. -/
def pathParentChain (p : String) : List String :=
  pathParentChainAux [] p.data

/-- mkdir(parents=True, exist_ok=True): create the path and every ancestor,
never failing, never touching files. -/
def mkdirParents (fs : FS) (p : String) : FS :=
  { fs with dirs := addDirs fs.dirs (pathParentChain p) }

/-- _create_output_structure: create the session root and the nine category
subdirectories under it, returning the new filesystem and the
app_output_dir value recorded on the instance. -/
def _create_output_structure (t : ObjectionTester) (fs : FS) : FS × String :=
  let app_dir := app_output_dir t
  let fs1 := categories.foldl (fun acc c => mkdirParents acc (app_dir ++ "/" ++ c)) fs
  (fs1, app_dir)

/-- _build_base_command: the list objection, then -S device when the device
id is truthy, then -g package when the package name is truthy, else -g pid
when the process id is truthy. -/
def _build_base_command (t : ObjectionTester) : List String :=
  let cmd := ["objection"]
  let cmd := cmd ++ (if truthyOptStr t.device_id then ["-S", optStrVal t.device_id] else [])
  let cmd := cmd ++
    (if truthyOptStr t.package_name then ["-g", optStrVal t.package_name]
     else if truthyOptInt t.process_id then ["-g", optIntStr t.process_id]
     else [])
  cmd

/-- The full command passed to subprocess.run by _execute_objection_command:
the base command followed by run and the logical command. -/
def full_command (t : ObjectionTester) (command : String) : List String :=
  _build_base_command t ++ ["run", command]

/-- The Target field of the report header, exactly the Python expression
package_name or (PID f-string) or Unknown with Python truthiness. -/
def targetField (t : ObjectionTester) : String :=
  pyOrOptStr t.package_name (pyOrStr ("PID " ++ optIntStr t.process_id) "Unknown")

/-- The Device field of the report header: device_id or Default. -/
def deviceField (t : ObjectionTester) : String :=
  pyOrOptStr t.device_id "Default"

/-- The fixed header prefix of the report envelope, up to the Timestamp
field. -/
def headerBefore : String :=
  "\n" ++ eq80 ++ "\nOBJECTION TESTING OUTPUT\n" ++ eq80 ++ "\n"

/-- _format_output: the standardized report envelope written for every
invocation record, built exactly as the Python f-string does. -/
def _format_output (t : ObjectionTester) (command description timestamp stdout stderr : String)
    (returncode : Int) (completedAt : String) : String :=
  let header :=
    headerBefore ++
    ("Timestamp: " ++ timestamp ++ "\n") ++
    ("Target: " ++ targetField t ++ "\n" ++
     "Device: " ++ deviceField t ++ "\n" ++
     "Command: " ++ command ++ "\n" ++
     "Description: " ++ description ++ "\n" ++
     "Return Code: " ++ toString returncode ++ "\n" ++
     eq80 ++ "\n\n")
  let content := header
  let content := content ++
    (if stdout ≠ "" then "STDOUT:\n" ++ dash40 ++ "\n" ++ stdout ++ "\n\n" else "")
  let content := content ++
    (if stderr ≠ "" then "STDERR:\n" ++ dash40 ++ "\n" ++ stderr ++ "\n\n" else "")
  content ++ eq80 ++ "\nTest completed at: " ++ completedAt ++ "\n" ++ eq80 ++ "\n"

/-- Outcome of one subprocess.run call: normal completion with a return code
and captured streams, expiry of the timeout, or a raised execution fault
carrying its str(e) text. -/
inductive RunOutcome where
  | completed (returncode : Int) (stdout stderr : String)
  | timedOut
  | raised (msg : String)
deriving DecidableEq

/-- Environment of one _execute_objection_command call: what the child
process does, the two clock samples, and whether each file-write attempt
raises an I/O error (with its str(e) text). -/
structure ExecEnv where
  outcome : RunOutcome
  timestamp : String
  completedAt : String
  completedAtRetry : String
  firstWriteFails : Bool
  secondWriteFails : Bool
  writeErrorText : String
deriving DecidableEq

/-- The output file path chosen by _execute_objection_command:
app_output_dir / category / test_name _ timestamp .txt. -/
def exec_output_path (t : ObjectionTester) (env : ExecEnv) (category test_name : String) : String :=
  app_output_dir t ++ "/" ++ category ++ "/" ++ (test_name ++ "_" ++ env.timestamp ++ ".txt")

/-- What _execute_objection_command hands back to its caller: the normalized
tuple (success, output file path, stdout, stderr), or an uncaught exception
propagating out. -/
inductive ExecResult where
  | ret (success : Bool) (output_file stdout stderr : String)
  | raisedExn
deriving DecidableEq

/-- The success flag of a normalized result, none when the call raised. -/
def execFlag : ExecResult → Option Bool
  | .ret s _ _ _ => some s
  | .raisedExn => none

/-- The synthesized stderr text for the timeout branch. -/
def timeoutMsg : String := "Command timed out after 60 seconds"

/-- The timeout bound, in seconds, passed to subprocess.run. -/
def commandTimeoutSeconds : Nat := 60

/-- _execute_objection_command: build the output path from the category,
test name and timestamp; run the command; format and write exactly one
record; return the normalized tuple.  A write failure in the normal branch
is caught by the generic except-Exception handler, which synthesizes the
error, formats a fresh record with return code -1 and tries the write once
more; a write failure inside either except handler propagates.  Returns the
result together with the list of files actually written. -/
def _execute_objection_command (t : ObjectionTester) (env : ExecEnv)
    (command category test_name description : String) :
    ExecResult × List (String × String) :=
  let output_file := exec_output_path t env category test_name
  match env.outcome with
  | .completed rc out err =>
    let content := _format_output t command description env.timestamp out err rc env.completedAt
    if env.firstWriteFails then
      let error_msg := "Error executing command: " ++ env.writeErrorText
      let content2 :=
        _format_output t command description env.timestamp "" error_msg (-1) env.completedAtRetry
      if env.secondWriteFails then (.raisedExn, [])
      else (.ret false output_file "" error_msg, [(output_file, content2)])
    else
      (.ret (rc == 0) output_file out err, [(output_file, content)])
  | .timedOut =>
    let error_msg := timeoutMsg
    let content := _format_output t command description env.timestamp "" error_msg (-1) env.completedAt
    if env.firstWriteFails then (.raisedExn, [])
    else (.ret false output_file "" error_msg, [(output_file, content)])
  | .raised msg =>
    let error_msg := "Error executing command: " ++ msg
    let content := _format_output t command description env.timestamp "" error_msg (-1) env.completedAt
    if env.firstWriteFails then (.raisedExn, [])
    else (.ret false output_file "" error_msg, [(output_file, content)])

/-- The string after the first Return Code: label of a report, up to the
end of that line: the return code the record carries. -/
def extractReturnCode (content : String) : Option String :=
  (listAfterSub ("Return Code: ".data) content.data).map
    (fun l => String.mk (l.takeWhile (fun c => c ≠ '\n')))

/-- Environment of one verify_target_running call: the outcome of the
single adb probe, and the str(e) text a TimeoutExpired would carry. -/
structure VerifyEnv where
  probe : RunOutcome
  timeoutText : String
deriving DecidableEq

/-- verify_target_running: a total (boolean, message) readiness check.  With
no target it answers negatively at once; for a package target it probes
pidof and requires a zero exit and nonempty stripped output; for a pid
target it probes ps -p and requires a zero exit with the pid string inside
the output; every probe fault is caught and converted into a negative
answer with an explanatory message. -/
def verify_target_running (t : ObjectionTester) (env : VerifyEnv) : Bool × String :=
  if !truthyOptStr t.package_name && !truthyOptInt t.process_id then
    (false, "No target package or PID specified")
  else if truthyOptStr t.package_name then
    match env.probe with
    | .completed rc out _ =>
      if rc = 0 && pyStrip out ≠ "" then
        (true, "Package " ++ optStrVal t.package_name ++ " is running (PID: " ++ pyStrip out ++ ")")
      else
        (false, "Package " ++ optStrVal t.package_name ++ " is not running")
    | .timedOut => (false, "Error verifying target: " ++ env.timeoutText)
    | .raised m => (false, "Error verifying target: " ++ m)
  else
    match env.probe with
    | .completed rc out _ =>
      if rc = 0 && strContains out (optIntStr t.process_id) then
        (true, "Process " ++ optIntStr t.process_id ++ " is running")
      else
        (false, "Process " ++ optIntStr t.process_id ++ " is not running")
    | .timedOut => (false, "Error verifying target: " ++ env.timeoutText)
    | .raised m => (false, "Error verifying target: " ++ m)

/-- One entry of the results list consumed by get_test_summary:
(test name, success flag, output file path). -/
abbrev TestResult := String × Bool × String

/-- The numeric fields of the test summary; the success rate is kept as the
exact rational that the Python true division computes before the one-decimal
float formatting. -/
structure TestSummary where
  total_tests : Nat
  successful_tests : Nat
  failed_tests : Nat
  success_rate : ℚ
deriving DecidableEq

/-- Python true division, which raises ZeroDivisionError on a zero
denominator. -/
def pyTrueDiv (a b : ℚ) : Except String ℚ :=
  if b = 0 then .error "ZeroDivisionError: division by zero" else .ok (a / b)

/-- get_test_summary: total is the length of the results list, successful
counts the entries whose success flag is true, failed is the difference, and
the success rate is successful divided by total (true division, so the empty
list raises) times one hundred. -/
def get_test_summary (results : List TestResult) : Except String TestSummary := do
  let total_tests := results.length
  let successful_tests := (results.filter (fun r => r.2.1)).length
  let failed_tests := total_tests - successful_tests
  let rate ← pyTrueDiv (successful_tests : ℚ) (total_tests : ℚ)
  pure { total_tests, successful_tests, failed_tests, success_rate := rate * 100 }

/-! Helper lemmas. -/

/-- A string with a nonempty left part of a concatenation is nonempty. -/
theorem str_append_ne_empty (a b : String) (h : a ≠ "") : a ++ b ≠ "" := by
  intro hc
  apply h
  have hd := congrArg String.data hc
  rw [String.data_append] at hd
  exact String.ext (List.append_eq_nil.mp hd).1

/-- A string of the form Error executing command: followed by anything is
never the timeout message. -/
theorem error_text_ne_timeoutMsg (m : String) :
    "Error executing command: " ++ m ≠ timeoutMsg := by
  intro h
  have h2 : ("Error executing command: " ++ m).data = timeoutMsg.data :=
    congrArg String.data h
  rw [String.data_append] at h2
  have e1 : "Error executing command: ".data = 'E' :: "rror executing command: ".data := rfl
  have e2 : timeoutMsg.data = 'C' :: "ommand timed out after 60 seconds".data := rfl
  rw [e1, e2, List.cons_append] at h2
  injection h2 with hc _
  exact absurd hc (by decide)

/-- Every report produced by _format_output decomposes around its Timestamp
header line. -/
theorem format_output_timestamp_decomp (t : ObjectionTester)
    (c d ts out err : String) (rc : Int) (ca : String) :
    ∃ post, _format_output t c d ts out err rc ca =
      headerBefore ++ ("Timestamp: " ++ ts ++ "\n") ++ post := by
  refine ⟨("Target: " ++ targetField t ++ "\n" ++
     "Device: " ++ deviceField t ++ "\n" ++
     "Command: " ++ c ++ "\n" ++
     "Description: " ++ d ++ "\n" ++
     "Return Code: " ++ toString rc ++ "\n" ++
     eq80 ++ "\n\n") ++
    ((if out ≠ "" then "STDOUT:\n" ++ dash40 ++ "\n" ++ out ++ "\n\n" else "") ++
     ((if err ≠ "" then "STDERR:\n" ++ dash40 ++ "\n" ++ err ++ "\n\n" else "") ++
      (eq80 ++ "\nTest completed at: " ++ ca ++ "\n" ++ eq80 ++ "\n"))), ?_⟩
  simp only [_format_output, String.append_assoc]

/-- Every report produced by _format_output decomposes around its Return
Code header line. -/
theorem format_output_rc_decomp (t : ObjectionTester)
    (c d ts out err : String) (rc : Int) (ca : String) :
    ∃ pre post, _format_output t c d ts out err rc ca =
      pre ++ ("Return Code: " ++ toString rc ++ "\n") ++ post := by
  refine ⟨headerBefore ++ ("Timestamp: " ++ ts ++ "\n") ++
    ("Target: " ++ targetField t ++ "\n" ++
     "Device: " ++ deviceField t ++ "\n" ++
     "Command: " ++ c ++ "\n" ++
     "Description: " ++ d ++ "\n"),
    (eq80 ++ "\n\n") ++
    ((if out ≠ "" then "STDOUT:\n" ++ dash40 ++ "\n" ++ out ++ "\n\n" else "") ++
     ((if err ≠ "" then "STDERR:\n" ++ dash40 ++ "\n" ++ err ++ "\n\n" else "") ++
      (eq80 ++ "\nTest completed at: " ++ ca ++ "\n" ++ eq80 ++ "\n"))), ?_⟩
  simp only [_format_output, String.append_assoc]

/-! Claims. -/

/-- Claim C3 (confirmed): the composed external command line is the tool
name, then -S device exactly when a device identifier is set, then -g
package when a package name is set, else -g pid when a process id is set,
then run and the logical command; in particular the com.example.app
scenario composes objection -g com.example.app run android sslpinning
disable. -/
theorem C3_command_composition (t : ObjectionTester) (c : String) :
    (t.device_id = none → t.package_name = none → t.process_id = none →
      full_command t c = ["objection", "run", c]) ∧
    (∀ p, t.device_id = none → t.package_name = some p → p ≠ "" →
      full_command t c = ["objection", "-g", p, "run", c]) ∧
    (∀ dv p, t.device_id = some dv → dv ≠ "" → t.package_name = some p → p ≠ "" →
      full_command t c = ["objection", "-S", dv, "-g", p, "run", c]) ∧
    (∀ pid, t.device_id = none → t.package_name = none → t.process_id = some pid → pid ≠ 0 →
      full_command t c = ["objection", "-g", toString pid, "run", c]) ∧
    (∀ dv pid, t.device_id = some dv → dv ≠ "" → t.package_name = none →
      t.process_id = some pid → pid ≠ 0 →
      full_command t c = ["objection", "-S", dv, "-g", toString pid, "run", c]) ∧
    full_command ⟨some "com.example.app", none, none, "./output/objection"⟩
        "android sslpinning disable" =
      ["objection", "-g", "com.example.app", "run", "android sslpinning disable"] := by
  refine ⟨?_, ?_, ?_, ?_, ?_, by decide⟩
  · intro h1 h2 h3
    simp [full_command, _build_base_command, h1, h2, h3, truthyOptStr, truthyOptInt]
  · intro p h1 h2 h3
    simp [full_command, _build_base_command, h1, h2, h3, truthyOptStr, truthyOptInt, optStrVal]
  · intro dv p h1 h2 h3 h4
    simp [full_command, _build_base_command, h1, h2, h3, h4, truthyOptStr, truthyOptInt, optStrVal]
  · intro pid h1 h2 h3 h4
    simp [full_command, _build_base_command, h1, h2, h3, h4, truthyOptStr, truthyOptInt,
      optStrVal, optIntStr]
  · intro dv pid h1 h2 h3 h4 h5
    simp [full_command, _build_base_command, h1, h2, h3, h4, h5, truthyOptStr, truthyOptInt,
      optStrVal, optIntStr]

/-- Closed instance of C3_command_composition at a concrete target with a
device id set. -/
theorem C3_witness :
    full_command ⟨some "com.example.app", none, some "emulator-5554", "./output/objection"⟩
        "android sslpinning disable" =
      ["objection", "-S", "emulator-5554", "-g", "com.example.app", "run",
       "android sslpinning disable"] :=
  (C3_command_composition
      ⟨some "com.example.app", none, some "emulator-5554", "./output/objection"⟩
      "android sslpinning disable").2.2.1 "emulator-5554" "com.example.app"
    rfl (by decide) rfl (by decide)

/-- Claim C6 (code_bug): with neither a package name nor a process id set,
the Target field of the persisted report is the string PID None, not the
literal Unknown that the claim (and the dead third operand of the or-chain
in the code) prescribes. -/
theorem C6_target_unknown_bug :
    targetField ⟨none, none, none, "./output/objection"⟩ = "PID None" ∧
    targetField ⟨none, none, none, "./output/objection"⟩ ≠ "Unknown" ∧
    strContains
      (_format_output ⟨none, none, none, "./output/objection"⟩
        "android sslpinning disable" "desc" "20240101_120000" "" "" 0 "2024-01-01 12:00:05")
      "Target: PID None" = true ∧
    strContains
      (_format_output ⟨none, none, none, "./output/objection"⟩
        "android sslpinning disable" "desc" "20240101_120000" "" "" 0 "2024-01-01 12:00:05")
      "Unknown" = false := by
  refine ⟨by decide, by decide, by decide, by decide⟩

/-- Claim C10 (confirmed): for every nonempty results list the summary
reports total = length, successful = count of true success flags, failed =
the difference, and a success rate of successful over total times one
hundred; the empty list makes the true division raise instead of returning
a summary. -/
theorem C10_test_summary (rs : List TestResult) (h : rs ≠ []) :
    get_test_summary rs =
      .ok ⟨rs.length, (rs.filter (fun r => r.2.1)).length,
           rs.length - (rs.filter (fun r => r.2.1)).length,
           (((rs.filter (fun r => r.2.1)).length : ℚ) / (rs.length : ℚ)) * 100⟩ ∧
    get_test_summary ([] : List TestResult) = .error "ZeroDivisionError: division by zero" := by
  constructor
  · have hpos : 0 < rs.length := List.length_pos.mpr h
    have hlen : (rs.length : ℚ) ≠ 0 := by
      simp only [ne_eq, Nat.cast_eq_zero]
      omega
    simp [get_test_summary, pyTrueDiv, hlen]
  · simp [get_test_summary, pyTrueDiv]

/-- Closed instance of C10_test_summary: four tests, three successes, rate
seventy-five percent. -/
theorem C10_witness :
    get_test_summary
        [("a", true, "fa"), ("b", false, "fb"), ("c", true, "fc"), ("d", true, "fd")] =
      .ok ⟨4, 3, 1, (((3 : Nat) : ℚ) / ((4 : Nat) : ℚ)) * 100⟩ :=
  (C10_test_summary
      [("a", true, "fa"), ("b", false, "fb"), ("c", true, "fc"), ("d", true, "fd")]
      (by decide)).1

/-- Claim C1 (corrected), counterexample to the claim as stated: the child
process completes with return code 0, but the first file write raises and is
caught by the generic fault handler, whose retried write succeeds, so the
call returns success = false although the child exited with code 0. -/
theorem C1_counterexample :
    (let t : ObjectionTester := ⟨some "com.example.app", none, none, "./output/objection"⟩
     let env : ExecEnv :=
       ⟨.completed 0 "SSL pinning disabled" "", "20240101_120000", "2024-01-01 12:00:05",
        "2024-01-01 12:00:05", true, false, "[Errno 28] No space left on device"⟩
     env.outcome = .completed 0 "SSL pinning disabled" "" ∧
     execFlag (_execute_objection_command t env "android sslpinning disable"
         "security_bypasses" "ssl_pinning_bypass" "d").1 = some false) := by
  decide

/-- Claim C1 (corrected), amended: the returned success flag is true iff the
child process completed with return code 0 and the record write did not
fault; every nonzero-exit, timeout or fault case (the caught first write
fault included) returns false. -/
theorem C1_success_flag_amended (t : ObjectionTester) (env : ExecEnv)
    (command category test_name description : String) :
    execFlag (_execute_objection_command t env command category test_name description).1 =
        some true ↔
      (env.firstWriteFails = false ∧ ∃ out err, env.outcome = .completed 0 out err) := by
  cases henv : env.outcome with
  | completed rc out err =>
    by_cases hf : env.firstWriteFails
    · by_cases hs : env.secondWriteFails
      · simp [_execute_objection_command, henv, hf, hs, execFlag]
      · simp [_execute_objection_command, henv, hf, hs, execFlag]
    · simp only [_execute_objection_command, henv, hf, if_neg, Bool.false_eq_true,
        if_false, execFlag, Option.some.injEq, eq_self_iff_true, true_and]
      constructor
      · intro hb
        exact ⟨out, err, by simp [beq_iff_eq.mp hb]⟩
      · rintro ⟨o, e, he⟩
        have : rc = 0 := by
          injection he
        simp [this]
  | timedOut =>
    by_cases hf : env.firstWriteFails
    · simp [_execute_objection_command, henv, hf, execFlag]
    · simp [_execute_objection_command, henv, hf, execFlag]
  | raised m =>
    by_cases hf : env.firstWriteFails
    · simp [_execute_objection_command, henv, hf, execFlag]
    · simp [_execute_objection_command, henv, hf, execFlag]

/-- Claim C7 (corrected), counterexample to the claim as stated: the child
completed normally, the write of the record raises an I/O error, and the
exception does not propagate — the generic except handler catches it and
the call still returns a normalized failure tuple. -/
theorem C7_counterexample :
    (let t : ObjectionTester := ⟨some "com.example.app", none, none, "./output/objection"⟩
     let env : ExecEnv :=
       ⟨.completed 0 "pinning disabled" "", "20240102_090000", "2024-01-02 09:00:30",
        "2024-01-02 09:00:31", true, false, "[Errno 13] Permission denied"⟩
     env.firstWriteFails = true ∧
     (_execute_objection_command t env "android sslpinning disable"
         "security_bypasses" "ssl_pinning_bypass" "d").1 ≠ ExecResult.raisedExn) := by
  decide

/-- Claim C7 (corrected), amended: a write failure in the timeout branch or
the fault branch propagates uncaught, and so does a failure of the retried
write in the normal branch; but a first write failure after normal
completion is caught by the generic exception handler and converted into a
normalized failure tuple carrying the synthesized I/O error text. -/
theorem C7_write_failure_amended (t : ObjectionTester) (env : ExecEnv)
    (command category test_name description : String)
    (hf : env.firstWriteFails = true) :
    (env.outcome = .timedOut →
      _execute_objection_command t env command category test_name description =
        (.raisedExn, [])) ∧
    (∀ m, env.outcome = .raised m →
      _execute_objection_command t env command category test_name description =
        (.raisedExn, [])) ∧
    (∀ rc out err, env.outcome = .completed rc out err → env.secondWriteFails = true →
      _execute_objection_command t env command category test_name description =
        (.raisedExn, [])) ∧
    (∀ rc out err, env.outcome = .completed rc out err → env.secondWriteFails = false →
      (_execute_objection_command t env command category test_name description).1 =
        .ret false (exec_output_path t env category test_name) ""
          ("Error executing command: " ++ env.writeErrorText)) := by
  refine ⟨?_, ?_, ?_, ?_⟩
  · intro ho
    simp [_execute_objection_command, ho, hf]
  · intro m ho
    simp [_execute_objection_command, ho, hf]
  · intro rc out err ho hs
    simp [_execute_objection_command, ho, hf, hs]
  · intro rc out err ho hs
    simp [_execute_objection_command, ho, hf, hs]

/-- Closed instance of C7_write_failure_amended: on a timeout whose record
write also fails, the exception propagates and no file is written. -/
theorem C7_witness :
    _execute_objection_command ⟨some "com.example.app", none, none, "./output/objection"⟩
        ⟨.timedOut, "20240102_090000", "2024-01-02 09:01:00", "2024-01-02 09:01:00",
         true, false, "[Errno 13] Permission denied"⟩
        "android sslpinning disable" "security_bypasses" "ssl_pinning_bypass" "d" =
      (.raisedExn, []) :=
  (C7_write_failure_amended ⟨some "com.example.app", none, none, "./output/objection"⟩
      ⟨.timedOut, "20240102_090000", "2024-01-02 09:01:00", "2024-01-02 09:01:00",
       true, false, "[Errno 13] Permission denied"⟩
      "android sslpinning disable" "security_bypasses" "ssl_pinning_bypass" "d" rfl).1 rfl

/-- Claim C2 (confirmed): whenever the record write does not fault, every
invocation — normal completion, nonzero exit, timeout or execution fault —
writes exactly one output file, at session root / category / test name _
timestamp .txt, and the timestamp embedded in the file name is the same
string as the Timestamp field of the header written inside the file. -/
theorem C2_one_record_file (t : ObjectionTester) (env : ExecEnv)
    (command category test_name description : String)
    (hw : env.firstWriteFails = false) :
    ∃ content,
      (_execute_objection_command t env command category test_name description).2 =
        [(app_output_dir t ++ "/" ++ category ++ "/" ++
            (test_name ++ "_" ++ env.timestamp ++ ".txt"), content)] ∧
      ∃ post,
        content = headerBefore ++ ("Timestamp: " ++ env.timestamp ++ "\n") ++ post := by
  cases henv : env.outcome with
  | completed rc out err =>
    exact ⟨_format_output t command description env.timestamp out err rc env.completedAt,
      by simp [_execute_objection_command, henv, hw, exec_output_path],
      format_output_timestamp_decomp t command description env.timestamp out err rc
        env.completedAt⟩
  | timedOut =>
    exact ⟨_format_output t command description env.timestamp "" timeoutMsg (-1) env.completedAt,
      by simp [_execute_objection_command, henv, hw, exec_output_path],
      format_output_timestamp_decomp t command description env.timestamp "" timeoutMsg (-1)
        env.completedAt⟩
  | raised m =>
    exact ⟨_format_output t command description env.timestamp ""
        ("Error executing command: " ++ m) (-1) env.completedAt,
      by simp [_execute_objection_command, henv, hw, exec_output_path],
      format_output_timestamp_decomp t command description env.timestamp ""
        ("Error executing command: " ++ m) (-1) env.completedAt⟩

/-- Closed instance of C2_one_record_file at a concrete nonzero-exit
invocation. -/
theorem C2_witness :
    ∃ content,
      (_execute_objection_command ⟨some "com.example.app", none, none, "./output/objection"⟩
          ⟨.completed 1 "" "no device found", "20240101_120000", "2024-01-01 12:00:05",
           "2024-01-01 12:00:05", false, false, ""⟩
          "android sslpinning disable" "security_bypasses" "ssl_pinning_bypass" "d").2 =
        [(app_output_dir ⟨some "com.example.app", none, none, "./output/objection"⟩ ++ "/" ++
            "security_bypasses" ++ "/" ++ ("ssl_pinning_bypass" ++ "_" ++ "20240101_120000" ++
            ".txt"), content)] ∧
      ∃ post, content = headerBefore ++ ("Timestamp: " ++ "20240101_120000" ++ "\n") ++ post :=
  C2_one_record_file ⟨some "com.example.app", none, none, "./output/objection"⟩
    ⟨.completed 1 "" "no device found", "20240101_120000", "2024-01-01 12:00:05",
     "2024-01-01 12:00:05", false, false, ""⟩
    "android sslpinning disable" "security_bypasses" "ssl_pinning_bypass" "d" rfl

/-- Claim C4 (confirmed): on a timeout (with the record write succeeding)
the call returns success false, empty stdout, the nonempty synthesized
timeout stderr, and writes the one output file whose record carries return
code -1. -/
theorem C4_timeout_behavior (t : ObjectionTester) (env : ExecEnv)
    (command category test_name description : String)
    (ho : env.outcome = .timedOut) (hw : env.firstWriteFails = false) :
    _execute_objection_command t env command category test_name description =
      (.ret false (exec_output_path t env category test_name) "" timeoutMsg,
       [(exec_output_path t env category test_name,
         _format_output t command description env.timestamp "" timeoutMsg (-1)
           env.completedAt)]) ∧
    timeoutMsg ≠ "" ∧
    strContains timeoutMsg "timed out" = true ∧
    toString (-1 : Int) = "-1" ∧
    (∃ pre post,
      _format_output t command description env.timestamp "" timeoutMsg (-1) env.completedAt =
        pre ++ ("Return Code: " ++ toString (-1 : Int) ++ "\n") ++ post) := by
  refine ⟨by simp [_execute_objection_command, ho, hw], by decide, by decide, by decide,
    format_output_rc_decomp t command description env.timestamp "" timeoutMsg (-1)
      env.completedAt⟩

/-- Closed instance of C4_timeout_behavior at a concrete timed-out
invocation. -/
theorem C4_witness :
    _execute_objection_command ⟨some "com.example.app", none, none, "./output/objection"⟩
        ⟨.timedOut, "20240101_120000", "2024-01-01 12:01:00", "2024-01-01 12:01:00",
         false, false, ""⟩
        "android sslpinning disable" "security_bypasses" "ssl_pinning_bypass" "d" =
      (.ret false
        (exec_output_path ⟨some "com.example.app", none, none, "./output/objection"⟩
          ⟨.timedOut, "20240101_120000", "2024-01-01 12:01:00", "2024-01-01 12:01:00",
           false, false, ""⟩ "security_bypasses" "ssl_pinning_bypass") "" timeoutMsg,
       [(exec_output_path ⟨some "com.example.app", none, none, "./output/objection"⟩
          ⟨.timedOut, "20240101_120000", "2024-01-01 12:01:00", "2024-01-01 12:01:00",
           false, false, ""⟩ "security_bypasses" "ssl_pinning_bypass",
         _format_output ⟨some "com.example.app", none, none, "./output/objection"⟩
           "android sslpinning disable" "d" "20240101_120000" "" timeoutMsg (-1)
           "2024-01-01 12:01:00")]) :=
  (C4_timeout_behavior ⟨some "com.example.app", none, none, "./output/objection"⟩
    ⟨.timedOut, "20240101_120000", "2024-01-01 12:01:00", "2024-01-01 12:01:00",
     false, false, ""⟩
    "android sslpinning disable" "security_bypasses" "ssl_pinning_bypass" "d" rfl rfl).1

/-- Claim C5 (corrected), counterexample to the claim as stated: a timed-out
invocation and an execution-fault invocation persist records carrying the
same return code -1, so the recorded values do not differ between the two
failure modes. -/
theorem C5_counterexample :
    (let t : ObjectionTester := ⟨some "com.example.app", none, none, "./output/objection"⟩
     let envA : ExecEnv := ⟨.timedOut, "20240101_120000", "2024-01-01 12:01:00",
       "2024-01-01 12:01:00", false, false, ""⟩
     let envB : ExecEnv := ⟨.raised "No such file or directory: objection", "20240101_120100",
       "2024-01-01 12:01:30", "2024-01-01 12:01:30", false, false, ""⟩
     extractReturnCode ((_execute_objection_command t envA "android sslpinning disable"
         "security_bypasses" "timeout_case" "d").2.headI.2) = some "-1" ∧
     extractReturnCode ((_execute_objection_command t envB "android sslpinning disable"
         "security_bypasses" "fault_case" "d").2.headI.2) = some "-1") := by
  decide

/-- Claim C5 (corrected), amended: timeout and execution fault both record
the same sentinel return code -1, which does differ from every ordinary
nonnegative process exit code; the two failure modes are told apart by the
synthesized stderr text, not by the recorded return code. -/
theorem C5_return_code_amended (t : ObjectionTester) (env1 env2 : ExecEnv)
    (command category tn1 tn2 description m : String)
    (h1 : env1.outcome = .timedOut) (hw1 : env1.firstWriteFails = false)
    (h2 : env2.outcome = .raised m) (hw2 : env2.firstWriteFails = false) :
    (_execute_objection_command t env1 command category tn1 description).2 =
      [(exec_output_path t env1 category tn1,
        _format_output t command description env1.timestamp "" timeoutMsg (-1)
          env1.completedAt)] ∧
    (_execute_objection_command t env2 command category tn2 description).2 =
      [(exec_output_path t env2 category tn2,
        _format_output t command description env2.timestamp ""
          ("Error executing command: " ++ m) (-1) env2.completedAt)] ∧
    (_execute_objection_command t env1 command category tn1 description).1 =
      .ret false (exec_output_path t env1 category tn1) "" timeoutMsg ∧
    (_execute_objection_command t env2 command category tn2 description).1 =
      .ret false (exec_output_path t env2 category tn2) ""
        ("Error executing command: " ++ m) ∧
    ("Error executing command: " ++ m) ≠ timeoutMsg ∧
    (∀ rc : Int, 0 ≤ rc → rc ≠ -1) := by
  refine ⟨by simp [_execute_objection_command, h1, hw1],
    by simp [_execute_objection_command, h2, hw2],
    by simp [_execute_objection_command, h1, hw1],
    by simp [_execute_objection_command, h2, hw2],
    error_text_ne_timeoutMsg m, ?_⟩
  intro rc hrc
  omega

/-- Closed instance of C5_return_code_amended: the stderr texts of the two
failure modes differ. -/
theorem C5_witness :
    ("Error executing command: " ++ "No such file or directory: objection") ≠ timeoutMsg :=
  (C5_return_code_amended ⟨some "com.example.app", none, none, "./output/objection"⟩
    ⟨.timedOut, "20240101_120000", "2024-01-01 12:01:00", "2024-01-01 12:01:00",
     false, false, ""⟩
    ⟨.raised "No such file or directory: objection", "20240101_120100",
     "2024-01-01 12:01:30", "2024-01-01 12:01:30", false, false, ""⟩
    "android sslpinning disable" "security_bypasses" "timeout_case" "fault_case" "d"
    "No such file or directory: objection" rfl rfl rfl rfl).2.2.2.2.1

/-! Lemmas on the directory model, for claim C8. -/

/-- Membership after recording one directory. -/
theorem mem_addDir (ds : List String) (d x : String) :
    x ∈ addDir ds d ↔ x ∈ ds ∨ x = d := by
  by_cases h : d ∈ ds
  · simp only [addDir, h, if_true]
    constructor
    · exact Or.inl
    · rintro (hx | rfl)
      · exact hx
      · exact h
  · simp [addDir, h]

/-- Recording an already-existing directory changes nothing. -/
theorem addDir_eq_of_mem {ds : List String} {d : String} (h : d ∈ ds) :
    addDir ds d = ds := by
  simp [addDir, h]

/-- Recording directories never removes one. -/
theorem subset_addDirs (ds l : List String) : ds ⊆ addDirs ds l := by
  induction l generalizing ds with
  | nil => exact fun x hx => hx
  | cons a l ih =>
    intro x hx
    exact ih (addDir ds a) ((mem_addDir ds a x).mpr (Or.inl hx))

/-- Every recorded directory is present afterwards. -/
theorem mem_addDirs_of_mem {l : List String} {x : String} (ds : List String) (h : x ∈ l) :
    x ∈ addDirs ds l := by
  induction l generalizing ds with
  | nil => cases h
  | cons a l ih =>
    rcases List.mem_cons.mp h with rfl | hx
    · exact subset_addDirs (addDir ds x) l ((mem_addDir ds x x).mpr (Or.inr rfl))
    · exact ih (addDir ds a) hx

/-- Recording directories that all exist already changes nothing. -/
theorem addDirs_eq_of_subset {l ds : List String} (h : ∀ x ∈ l, x ∈ ds) :
    addDirs ds l = ds := by
  induction l with
  | nil => rfl
  | cons a l ih =>
    have ha : addDir ds a = ds := addDir_eq_of_mem (h a (List.mem_cons_self a l))
    show addDirs (addDir ds a) l = ds
    rw [ha]
    exact ih (fun x hx => h x (List.mem_cons_of_mem a hx))

/-- The directory component of the category-creation fold, flattened. -/
theorem foldl_mkdirParents_dirs (f : String → String) (l : List String) (fs : FS) :
    (l.foldl (fun acc c => mkdirParents acc (f c)) fs).dirs =
      addDirs fs.dirs (l.flatMap (fun c => pathParentChain (f c))) := by
  induction l generalizing fs with
  | nil => rfl
  | cons a l ih =>
    show (l.foldl (fun acc c => mkdirParents acc (f c)) (mkdirParents fs (f a))).dirs = _
    rw [ih]
    simp [mkdirParents, addDirs, List.foldl_append]

/-- The category-creation fold never touches files. -/
theorem foldl_mkdirParents_files (f : String → String) (l : List String) (fs : FS) :
    (l.foldl (fun acc c => mkdirParents acc (f c)) fs).files = fs.files := by
  induction l generalizing fs with
  | nil => rfl
  | cons a l ih =>
    show (l.foldl (fun acc c => mkdirParents acc (f c)) (mkdirParents fs (f a))).files = _
    rw [ih]
    rfl

/-- Two filesystems with the same directories and files are equal. -/
theorem FS_eq (a b : FS) (h1 : a.dirs = b.dirs) (h2 : a.files = b.files) : a = b := by
  cases a
  cases b
  cases h1
  cases h2
  rfl

/-- Rebuilding a string from its characters gives the string back. -/
theorem string_mk_data (s : String) : String.mk s.data = s := String.ext rfl

/-- The full path is among the prefixes contributed by the parent chain. -/
theorem mem_pathParentChainAux (l acc : List Char) :
    String.mk (acc.reverse ++ l) ∈ pathParentChainAux acc l := by
  induction l generalizing acc with
  | nil => simp [pathParentChainAux]
  | cons c tl ih =>
    by_cases h : c = '/'
    · simp only [pathParentChainAux, h, if_true]
      exact List.mem_cons_of_mem _
        (by simpa [List.reverse_cons, List.append_assoc] using ih ('/' :: acc))
    · simp only [pathParentChainAux, h, if_false]
      simpa [List.reverse_cons, List.append_assoc] using ih (c :: acc)

/-- A path is an element of its own parent chain. -/
theorem mem_pathParentChain_self (p : String) : p ∈ pathParentChain p := by
  have h := mem_pathParentChainAux p.data []
  simpa [pathParentChain, string_mk_data] using h

/-- Claim C8 (confirmed): session initialization is idempotent — a second
run on the tree produced by the first returns the identical tree and root;
it never errors (the model is total, as with exist_ok=True), preserves all
files, only adds directories, creates all nine category subdirectories, and
names the root by package name, else pid_ and the process id, else the
fixed placeholder. -/
theorem C8_init_idempotent (t : ObjectionTester) (fs : FS) :
    _create_output_structure t ((_create_output_structure t fs).1) =
      ((_create_output_structure t fs).1, app_output_dir t) ∧
    (_create_output_structure t fs).2 = app_output_dir t ∧
    ((_create_output_structure t fs).1).files = fs.files ∧
    fs.dirs ⊆ ((_create_output_structure t fs).1).dirs ∧
    categories.length = 9 ∧
    (∀ c ∈ categories, app_output_dir t ++ "/" ++ c ∈ ((_create_output_structure t fs).1).dirs) ∧
    (∀ p, t.package_name = some p → p ≠ "" → app_output_dir t = t.output_dir ++ "/" ++ p) ∧
    (truthyOptStr t.package_name = false → ∀ pid, t.process_id = some pid → pid ≠ 0 →
      app_output_dir t = t.output_dir ++ "/" ++ ("pid_" ++ toString pid)) ∧
    (truthyOptStr t.package_name = false → truthyOptInt t.process_id = false →
      app_output_dir t = t.output_dir ++ "/" ++ "unknown_app") := by
  have hdirs : ∀ g : FS, ((_create_output_structure t g).1).dirs =
      addDirs g.dirs (categories.flatMap
        (fun c => pathParentChain (app_output_dir t ++ "/" ++ c))) :=
    fun g => foldl_mkdirParents_dirs (fun c => app_output_dir t ++ "/" ++ c) categories g
  have hfiles : ∀ g : FS, ((_create_output_structure t g).1).files = g.files :=
    fun g => foldl_mkdirParents_files (fun c => app_output_dir t ++ "/" ++ c) categories g
  refine ⟨?_, rfl, hfiles fs, ?_, rfl, ?_, ?_, ?_, ?_⟩
  · have hsub : ∀ x ∈ categories.flatMap
        (fun c => pathParentChain (app_output_dir t ++ "/" ++ c)),
        x ∈ ((_create_output_structure t fs).1).dirs := by
      intro x hx
      rw [hdirs fs]
      exact mem_addDirs_of_mem fs.dirs hx
    have e1 : (_create_output_structure t ((_create_output_structure t fs).1)).1 =
        (_create_output_structure t fs).1 := by
      refine FS_eq _ _ ?_ (hfiles _)
      rw [hdirs ((_create_output_structure t fs).1)]
      exact addDirs_eq_of_subset hsub
    calc _create_output_structure t ((_create_output_structure t fs).1)
        = ((_create_output_structure t ((_create_output_structure t fs).1)).1,
           (_create_output_structure t ((_create_output_structure t fs).1)).2) := rfl
      _ = ((_create_output_structure t fs).1, app_output_dir t) := by
          rw [e1]
          rfl

  · intro x hx
    rw [hdirs fs]
    exact subset_addDirs fs.dirs _ hx
  · intro c hc
    rw [hdirs fs]
    refine mem_addDirs_of_mem fs.dirs (List.mem_flatMap.mpr ⟨c, hc, ?_⟩)
    exact mem_pathParentChain_self (app_output_dir t ++ "/" ++ c)
  · intro p hp hpne
    simp [app_output_dir, appDirName, truthyOptStr, hp, hpne, optStrVal]
  · intro hpkg pid hpid hpidne
    simp only [app_output_dir, appDirName, hpkg, Bool.false_eq_true, if_false,
      truthyOptInt, hpid, optIntStr]
    simp [hpidne]
  · intro hpkg hpid
    simp [app_output_dir, appDirName, hpkg, hpid]

/-- Closed instance of C8_init_idempotent: the second initialization on a
concrete target returns the first tree unchanged, and the session_logs
category directory exists in it. -/
theorem C8_witness :
    _create_output_structure ⟨some "com.example.app", none, none, "./output/objection"⟩
        ((_create_output_structure ⟨some "com.example.app", none, none, "./output/objection"⟩
          ⟨["/tmp"], [("/tmp/old.txt", "old")]⟩).1) =
      ((_create_output_structure ⟨some "com.example.app", none, none, "./output/objection"⟩
          ⟨["/tmp"], [("/tmp/old.txt", "old")]⟩).1,
       app_output_dir ⟨some "com.example.app", none, none, "./output/objection"⟩) ∧
    app_output_dir ⟨some "com.example.app", none, none, "./output/objection"⟩ ++ "/" ++
        "session_logs" ∈
      ((_create_output_structure ⟨some "com.example.app", none, none, "./output/objection"⟩
          ⟨["/tmp"], [("/tmp/old.txt", "old")]⟩).1).dirs :=
  ⟨(C8_init_idempotent ⟨some "com.example.app", none, none, "./output/objection"⟩
      ⟨["/tmp"], [("/tmp/old.txt", "old")]⟩).1,
   (C8_init_idempotent ⟨some "com.example.app", none, none, "./output/objection"⟩
      ⟨["/tmp"], [("/tmp/old.txt", "old")]⟩).2.2.2.2.2.1 "session_logs" (by decide)⟩

/-! Helpers for claim C9: the decimal rendering of an integer is nonempty. -/

/-- toDigitsCore never empties a nonempty accumulator. -/
theorem toDigitsCore_ne_nil_acc (b : Nat) :
    ∀ (f n : Nat) (acc : List Char), acc ≠ [] → Nat.toDigitsCore b f n acc ≠ []
  | 0, _, _, h => h
  | f + 1, n, acc, h => by
    simp only [Nat.toDigitsCore]
    split
    · simp
    · exact toDigitsCore_ne_nil_acc b f (n / b) _ (by simp)

/-- With at least one unit of fuel, toDigitsCore returns a nonempty list. -/
theorem toDigitsCore_succ_ne_nil (b f n : Nat) (acc : List Char) :
    Nat.toDigitsCore b (f + 1) n acc ≠ [] := by
  simp only [Nat.toDigitsCore]
  split
  · simp
  · exact toDigitsCore_ne_nil_acc b f (n / b) _ (by simp)

/-- The decimal representation of a natural number is nonempty. -/
theorem nat_repr_data_ne_nil (n : Nat) : (Nat.repr n).data ≠ [] :=
  toDigitsCore_succ_ne_nil 10 n n []

/-- The decimal representation of an integer is nonempty. -/
theorem int_toString_data_ne_nil (n : Int) : (toString n).data ≠ [] := by
  cases n with
  | ofNat m => exact nat_repr_data_ne_nil m
  | negSucc m =>
    show (("-" ++ Nat.repr (m + 1)).data ≠ [])
    rw [String.data_append]
    simp

/-- A nonempty needle never occurs in the empty string. -/
theorem strContains_empty (s : String) (h : s.data ≠ []) : strContains "" s = false := by
  rcases hd : s.data with _ | ⟨c, tl⟩
  · exact absurd hd h
  · simp [strContains, hd, listContainsSub]

/-- Claim C9 (confirmed): verify_target_running is total — it always hands
back a (boolean, nonempty message) pair, converting every probe fault into
a negative answer; and for a process-id target the answer is true exactly
when the probe completed with exit code zero and the pid string occurs in
its output, the empty-output zero-exit probe yielding false with the
explanatory not-running message. -/
theorem C9_verify_target (t : ObjectionTester) (env : VerifyEnv) :
    (verify_target_running t env).2 ≠ "" ∧
    (truthyOptStr t.package_name = false → truthyOptInt t.process_id = true →
      (((verify_target_running t env).1 = true ↔
        ∃ rc out err, env.probe = .completed rc out err ∧ rc = 0 ∧
          strContains out (optIntStr t.process_id) = true) ∧
       (∀ err, env.probe = .completed 0 "" err →
        verify_target_running t env =
          (false, "Process " ++ optIntStr t.process_id ++ " is not running")))) := by
  constructor
  · unfold verify_target_running
    split
    · decide
    · split
      · split
        · split
          · exact str_append_ne_empty "Package " _ (by decide)
          · exact str_append_ne_empty "Package " _ (by decide)
        · exact str_append_ne_empty "Error verifying target: " _ (by decide)
        · exact str_append_ne_empty "Error verifying target: " _ (by decide)
      · split
        · split
          · exact str_append_ne_empty "Process " _ (by decide)
          · exact str_append_ne_empty "Process " _ (by decide)
        · exact str_append_ne_empty "Error verifying target: " _ (by decide)
        · exact str_append_ne_empty "Error verifying target: " _ (by decide)
  · intro hpkg hpid
    constructor
    · rcases hprobe : env.probe with ⟨rc, out, err⟩ | _ | m
      · by_cases hc : rc = 0 ∧ strContains out (optIntStr t.process_id) = true
        · simp only [verify_target_running, hpkg, hpid, hprobe, Bool.not_false,
            Bool.not_true, Bool.and_false, Bool.false_eq_true, if_false]
          have hcb : (rc = 0 && strContains out (optIntStr t.process_id)) = true := by
            simp [hc.1, hc.2]
          rw [hcb]
          exact ⟨fun _ => ⟨rc, out, err, rfl, hc.1, hc.2⟩, fun _ => rfl⟩
        · simp only [verify_target_running, hpkg, hpid, hprobe, Bool.not_false,
            Bool.not_true, Bool.and_false, Bool.false_eq_true, if_false]
          have hcb : (rc = 0 && strContains out (optIntStr t.process_id)) = false := by
            rcases Decidable.not_and_iff_or_not.mp hc with h | h
            · simp [h]
            · simp [Bool.eq_false_iff.mpr h]
          rw [hcb]
          constructor
          · intro h
            exact Bool.noConfusion h
          · rintro ⟨rc2, out2, err2, heq, hrc, hco⟩
            injection heq with e1 e2 e3
            exact absurd ⟨e1.trans hrc, e2.symm ▸ hco⟩ hc
      · simp [verify_target_running, hpkg, hpid, hprobe]
      · simp [verify_target_running, hpkg, hpid, hprobe]
    · intro err hprobe
      have hno : strContains "" (optIntStr t.process_id) = false := by
        rcases hn : t.process_id with _ | n
        · rw [hn] at hpid
          exact absurd hpid (by simp [truthyOptInt])
        · simp only [optIntStr]
          exact strContains_empty _ (int_toString_data_ne_nil n)
      simp [verify_target_running, hpkg, hpid, hprobe, hno]

/-- Closed instance of C9_verify_target: a pid target whose zero-exit probe
output contains the pid string is reported running. -/
theorem C9_witness :
    (verify_target_running ⟨none, some 1234, none, "./output/objection"⟩
        ⟨.completed 0 "  1234 com.example.app\n" "", "probe timed out"⟩).1 = true :=
  ((C9_verify_target ⟨none, some 1234, none, "./output/objection"⟩
      ⟨.completed 0 "  1234 com.example.app\n" "", "probe timed out"⟩).2 rfl rfl).1.mpr
    ⟨0, "  1234 com.example.app\n", "", rfl, rfl, by decide⟩
